import Mathlib

/-
Verification of the Candle pair-sync core against its specification.

The repository is a React frontend for a two-participant ("couple") app backed
by a FastAPI server and Firebase (Firestore as the persistent store, the
Realtime Database as the best-effort broadcast channel).  The frontend sources
are in the snapshot; the backend server is not, so backend-decided behaviours
(the RevealGate and TurnProtocol state machines) are modelled from the
specification and marked as such, while everything client-side (pair-key
derivation, realtime envelope handlers, polling fallbacks, the realtime
context) is embedded directly from the JavaScript sources.

Conventions: JavaScript nullable strings become Option String (with the empty
string also counting as falsy where the code tests truthiness); timers are
modelled by their kind (setTimeout fires once at its period, setInterval fires
once per period) and polls are counted; React effect guards become Boolean
functions of the inputs the effect reads.
-/

namespace Candle

/-! ## Pair-key derivation

From getPairKey in the RealtimeContext (src/unnamed/part_007 lines 47-51 and
src/unnamed/part_006 lines 302-306): returns null when the user id or the
partner id is missing (JavaScript falsiness, which for strings also covers the
empty string), otherwise sorts the two ids with the default lexicographic
array sort and joins them with an underscore. -/

/-- Lexicographic comparison of character lists by code point, mirroring the
default JavaScript array sort comparator used on the two id strings. -/
def jsLtL : List Char → List Char → Bool
  | [], [] => false
  | [], _ :: _ => true
  | _ :: _, [] => false
  | c :: cs, d :: ds => if c < d then true else if d < c then false else jsLtL cs ds

/-- String comparison used by the sort in getPairKey. -/
def jsLt (a b : String) : Bool := jsLtL a.data b.data

/-- Result of sorting the two-element array of ids: the JavaScript sort is
stable, so the pair is swapped exactly when the second id is strictly below
the first. -/
def sortPair (a b : String) : String × String :=
  if jsLt b a then (b, a) else (a, b)

/-- From src/unnamed/part_007 lines 47-51: null when either id is falsy,
otherwise the sorted ids joined with an underscore. -/
def getPairKey (idA idB : Option String) : Option String :=
  match idA, idB with
  | some a, some b =>
      if a = "" ∨ b = "" then none
      else
        let p := sortPair a b
        some (p.1 ++ "_" ++ p.2)
  | _, _ => none

/-! ## Participants and the reveal-gated daily question -/

/-- The two participants of a pair. -/
inductive Participant
  | A
  | B
deriving DecidableEq

/-- The other member of the pair. -/
def Participant.other : Participant → Participant
  | .A => .B
  | .B => .A

/-- Modelled from the spec: the RevealableInteraction record of section 3 for
the daily shared question.  The FastAPI backend that stores it (the
/questions/today and /questions/answer endpoints) is not part of the source
snapshot; only its frontend callers in TodayQuestion.jsx are. -/
structure RevealableInteraction where
  respA : Option String
  respB : Option String
  respondedAtA : Option Nat
  respondedAtB : Option Nat
  revealedAt : Option Nat
deriving DecidableEq

namespace RevealGate

/-- Response stored for one participant. -/
def resp (i : RevealableInteraction) : Participant → Option String
  | .A => i.respA
  | .B => i.respB

/-- Phases of the reveal gate. -/
inductive Phase
  | Empty
  | OneResponded (responder : Participant)
  | Revealed
deriving DecidableEq

/-- Modelled from the spec: phase is a pure function of the responses held
(section 3, RevealableInteraction invariant); the backend implementing it is
absent from the snapshot. -/
def phase (i : RevealableInteraction) : Phase :=
  match i.respA, i.respB with
  | none, none => .Empty
  | some _, none => .OneResponded .A
  | none, some _ => .OneResponded .B
  | some _, some _ => .Revealed

/-- Error taxonomy entry returned on an overwrite attempt (section 7). -/
inductive SubmitError
  | AlreadyResponded
deriving DecidableEq

/-- Record the response of one participant together with its timestamp. -/
def record (i : RevealableInteraction) (p : Participant) (r : String) (now : Nat) :
    RevealableInteraction :=
  match p with
  | .A => { i with respA := some r, respondedAtA := some now }
  | .B => { i with respB := some r, respondedAtB := some now }

/-- Modelled from the spec: the submit transition of section 4.4; the backend
/questions/answer endpoint implementing it is absent from the snapshot.
Empty records the first response; a second distinct responder completes the
reveal; the same responder again, or any submit once revealed, is rejected
with AlreadyResponded and the interaction is left untouched. -/
def submit (i : RevealableInteraction) (p : Participant) (r : String) (now : Nat) :
    Except SubmitError RevealableInteraction :=
  match phase i with
  | .Empty => .ok (record i p r now)
  | .OneResponded q =>
      if p = q then .error .AlreadyResponded
      else .ok { record i p r now with revealedAt := some now }
  | .Revealed => .error .AlreadyResponded

/-- View returned to a caller by a read. -/
structure ReadView where
  mine : Option String
  partnerAnswer : Option String
  bothAnswered : Bool
deriving DecidableEq

/-- Modelled from the spec: the read rule of section 4.4; the backend
/questions/today endpoint implementing it is absent from the snapshot.  While
the phase is not Revealed the caller sees only their own response; once
Revealed both responses are served. -/
def get (i : RevealableInteraction) (caller : Participant) : ReadView :=
  if phase i = .Revealed then
    { mine := resp i caller, partnerAnswer := resp i caller.other, bothAnswered := true }
  else
    { mine := resp i caller, partnerAnswer := none, bothAnswered := false }

end RevealGate

/-! ## TodayQuestion page rendering (from the source)

From src/frontend/src/pages/TodayQuestion.jsx lines 187-356: the answer
section renders the input form when the caller has not answered, a waiting
view showing only the own answer while both_answered is false, and the reveal
view with both answers once both_answered is true. -/

/-- Shape of the question payload the page receives from the read endpoint. -/
structure QuestionDTO where
  user_answer : Option String
  partner_answer : Option String
  both_answered : Bool
deriving DecidableEq

/-- The three mutually exclusive branches of the answer section. -/
inductive AnswerSection
  | inputForm
  | waitingView (mine : String)
  | revealView (mine partnerAnswer : String)
deriving DecidableEq

/-- From TodayQuestion.jsx lines 187-356: branch selection of the answer
section (input when user_answer is absent, else waiting until both_answered,
else reveal). -/
def todayQuestionAnswerSection (q : QuestionDTO) : AnswerSection :=
  match q.user_answer with
  | none => .inputForm
  | some mine =>
      if q.both_answered then .revealView mine (q.partner_answer.getD "")
      else .waitingView mine

/-- Whether a rendered branch displays the partner answer. -/
def displaysPartnerAnswer : AnswerSection → Bool
  | .revealView _ _ => true
  | _ => false

/-! ## Turn protocol (trivia) -/

/-- Modelled from the spec: the TurnInteraction record of section 3; the
backend trivia endpoints (/trivia/answer-and-pass, /trivia/submit-guess) that
store it are absent from the snapshot, only their caller Trivia.jsx is. -/
structure TurnInteraction where
  setter : Participant
  ground_truth : Option String
  guessVal : Option String
  isCorrect : Option Bool
deriving DecidableEq

namespace TurnProtocol

/-- Phases of the asymmetric turn protocol. -/
inductive TPhase
  | AwaitingSetter
  | AwaitingGuesser
  | Resolved
deriving DecidableEq

/-- Modelled from the spec: phase of a TurnInteraction as a function of the
write-once ground truth and the guess (section 4.5); the backend implementing
it is absent from the snapshot. -/
def phase (t : TurnInteraction) : TPhase :=
  match t.ground_truth, t.guessVal with
  | none, _ => .AwaitingSetter
  | some _, none => .AwaitingGuesser
  | some _, some _ => .Resolved

/-- Error taxonomy of section 7 for the turn protocol. -/
inductive TurnError
  | NotYourTurn
  | PartnerNotReady
  | AlreadyResponded
deriving DecidableEq

/-- Case normalization applied before comparing guess and ground truth. -/
def normalize (s : String) : String := s.toLower

/-- Modelled from the spec: the set transition of section 4.5; the backend
/trivia/answer-and-pass endpoint implementing it is absent from the snapshot.
The result pairs the (possibly unchanged) interaction with an error report;
no error means the transition was taken. -/
def set (t : TurnInteraction) (p : Participant) (v : String) :
    TurnInteraction × Option TurnError :=
  match t.ground_truth with
  | some _ => (t, some .AlreadyResponded)
  | none =>
      if p = t.setter then ({ t with ground_truth := some v }, none)
      else (t, some .NotYourTurn)

/-- Modelled from the spec: the guess transition of section 4.5; the backend
/trivia/submit-guess endpoint implementing it is absent from the snapshot.
A guess while the ground truth is unset is rejected with PartnerNotReady and
the interaction is returned unchanged; otherwise the guess is evaluated by
case-normalized string match and the interaction resolves. -/
def guess (t : TurnInteraction) (v : String) :
    TurnInteraction × Option TurnError :=
  match t.ground_truth, t.guessVal with
  | none, _ => (t, some .PartnerNotReady)
  | some gt, none =>
      ({ t with guessVal := some v, isCorrect := some (normalize v = normalize gt) }, none)
  | some _, some _ => (t, some .AlreadyResponded)

end TurnProtocol

/-! ## Trivia page error handling (from the source) -/

/-- Prefix test on character lists. -/
def isPrefixL : List Char → List Char → Bool
  | [], _ => true
  | _ :: _, [] => false
  | c :: cs, d :: ds => c = d && isPrefixL cs ds

/-- Substring test on character lists. -/
def containsL (needle : List Char) : List Char → Bool
  | [] => isPrefixL needle []
  | d :: ds => isPrefixL needle (d :: ds) || containsL needle ds

/-- Substring test on strings, mirroring the JavaScript includes method. -/
def strContains (hay needle : String) : Bool := containsL needle.data hay.data

/-- Outcome of the catch branch of submitGuess. -/
structure GuessErrorHandling where
  toastKind : String
  phaseAfter : Option String
deriving DecidableEq

/-- From src/frontend/src/pages/Trivia.jsx lines 166-174: when the error
detail includes the text Waiting for, the page shows an informational toast
and returns to the waiting_for_partner phase (recoverable); any other detail
is surfaced as an error toast. -/
def submitGuessCatch (detail : String) : GuessErrorHandling :=
  if strContains detail "Waiting for" then
    { toastKind := "info", phaseAfter := some "waiting_for_partner" }
  else
    { toastKind := "error", phaseAfter := none }

/-! ## Realtime envelope handlers (from the source) -/

/-- Envelope published on the notes channel, as read by LoveNotes. -/
structure NotesEnvelope where
  event : String
  from_user_name : String
deriving DecidableEq

/-- From src/unnamed/part_003 lines 129-139 (LoveNotes): whenever an envelope
and a lastUpdate tick are present, the page re-fetches the authoritative
notes from the backend; the envelope fields feed only a notification toast.
The result is the number of authoritative re-fetches issued. -/
def loveNotesOnEnvelope (env : Option NotesEnvelope) (lastUpdate : Option Nat) : Nat :=
  match env, lastUpdate with
  | some _, some _ => 1
  | _, _ => 0

/-- Envelope published on the questions channel, as read by TodayQuestion. -/
structure QuestionsEnvelope where
  event : String
  user_id : String
  user_name : String
deriving DecidableEq

/-- From src/frontend/src/pages/TodayQuestion.jsx lines 59-69: on any
envelope plus lastUpdate tick the page re-fetches the question from the
backend.  The result is the number of authoritative re-fetches issued. -/
def todayQuestionOnEnvelope (env : Option QuestionsEnvelope) (lastUpdate : Option Nat) : Nat :=
  match env, lastUpdate with
  | some _, some _ => 1
  | _, _ => 0

/-- Envelope published on the thumbKiss channel. -/
structure ThumbKissEnvelope where
  from_user_id : String
deriving DecidableEq

/-- Local state of the ThumbKiss page touched by its realtime effect. -/
structure ThumbKissState where
  kissCount : Nat
  receivedKiss : Bool
deriving DecidableEq

/-- From src/frontend/src/pages/ThumbKiss.jsx lines 42-59: on an envelope
whose from_user_id differs from the own id, the page increments its local
kiss count and plays the received animation; it issues no re-fetch of the
authoritative count.  The result pairs the new local state with the number
of authoritative re-fetches issued. -/
def thumbKissOnEnvelope (userId : String) (env : Option ThumbKissEnvelope)
    (lastUpdate : Option Nat) (st : ThumbKissState) : ThumbKissState × Nat :=
  match env, lastUpdate with
  | some e, some _ =>
      if e.from_user_id ≠ userId then
        ({ kissCount := st.kissCount + 1, receivedKiss := true }, 0)
      else (st, 0)
  | _, _ => (st, 0)

/-- Envelope published on the trivia channel. -/
structure TriviaEnvelope where
  event : String
deriving DecidableEq

/-- Local state the Trivia realtime effect writes, plus the number of
authoritative re-fetches it issues. -/
structure TriviaRealtimeEffect where
  phaseAfter : Option String
  questionCleared : Bool
  fetches : Nat
deriving DecidableEq

/-- From src/frontend/src/pages/Trivia.jsx lines 71-91: the realtime effect
drives the round phase directly from the event field of the envelope: on
trivia_waiting_guess it sets the phase to guessing with no re-fetch at all;
on trivia_completed it sets the phase to completed and re-fetches only the
scores; on new_question it clears the phase and the loaded question with no
re-fetch; any other envelope leaves the state alone. -/
def triviaOnEnvelope (env : Option TriviaEnvelope) (lastUpdate : Option Nat)
    (phase : Option String) : TriviaRealtimeEffect :=
  match env, lastUpdate with
  | some e, some _ =>
      if e.event = "trivia_waiting_guess" then ⟨some "guessing", false, 0⟩
      else if e.event = "trivia_completed" then ⟨some "completed", false, 1⟩
      else if e.event = "new_question" then ⟨none, true, 0⟩
      else ⟨phase, false, 0⟩
  | _, _ => ⟨phase, false, 0⟩

/-- Envelope published on the canvas channel, as read by SharedCanvas. -/
structure CanvasEnvelope where
  event : String
  creator_name : String
  title : String
deriving DecidableEq

/-- Local state the SharedCanvas realtime effect writes, plus the number of
authoritative re-fetches it issues. -/
structure CanvasRealtimeEffect where
  partnerDrawing : Option CanvasEnvelope
  fetches : Nat
deriving DecidableEq

/-- From src/frontend/src/pages/SharedCanvas.jsx lines 81-95: on a
drawing_saved envelope the page stores the envelope object itself into its
rendered partnerDrawing state (and also re-fetches the drawings); on
drawing_deleted it only re-fetches; other envelopes change nothing. -/
def sharedCanvasOnEnvelope (env : Option CanvasEnvelope) (lastUpdate : Option Nat)
    (pd : Option CanvasEnvelope) : CanvasRealtimeEffect :=
  match env, lastUpdate with
  | some e, some _ =>
      if e.event = "drawing_saved" then ⟨some e, 1⟩
      else if e.event = "drawing_deleted" then ⟨pd, 1⟩
      else ⟨pd, 0⟩
  | _, _ => ⟨pd, 0⟩

/-! ## Polling fallback policies (from the source)

Each page installs its fallback in a React effect keyed on isConnected.
setTimeout fires once at its period; setInterval fires once per period.
The policies record when the timer is active and of which kind it is. -/

/-- Kind of JavaScript timer driving a fallback.  A selfClearing timer is a
setTimeout armed in an effect whose dependency array includes the stored
timeout id: storing the fresh id re-triggers the effect, whose cleanup
clears the timeout it just armed, so the timer is perpetually cleared and
re-armed within the same render cycle. -/
inductive TimerKind
  | oneShot
  | repeating
  | selfClearing
deriving DecidableEq

/-- Number of timer firings, hence polls, within the first t milliseconds of
the timer being armed: a one-shot timer fires exactly once, at its period; a
repeating timer fires once per period; a self-clearing timer never survives
to its period and never fires. -/
def pollsUpTo (k : TimerKind) (periodMs t : Nat) : Nat :=
  match k with
  | .oneShot => if periodMs ≤ t then 1 else 0
  | .repeating => t / periodMs
  | .selfClearing => 0

/-- A polling-fallback policy: whether the timer is armed in each
connectivity state, and its kind and period. -/
structure FallbackPolicy where
  activeWhenConnected : Bool
  activeWhenDisconnected : Bool
  kind : TimerKind
  periodMs : Nat
deriving DecidableEq

/-- From src/frontend/src/pages/Trivia.jsx lines 93-114: a one-shot
setTimeout of 15000 ms armed only while isConnected is false and cleared
when it is true. -/
def triviaScoresFallback : FallbackPolicy :=
  { activeWhenConnected := false, activeWhenDisconnected := true,
    kind := .oneShot, periodMs := 15000 }

/-- From src/frontend/src/pages/ThumbKiss.jsx lines 62-82: while isConnected
is true the timer is cleared and none is armed; while false a 10000 ms
setTimeout is armed, but the dependency array of the effect includes
pollingTimeout (line 82) and the body stores the fresh timeout id with
setPollingTimeout, so every run re-triggers the effect, whose cleanup clears
the timeout it just armed: the timer is self-clearing and never fires. -/
def thumbKissFallback : FallbackPolicy :=
  { activeWhenConnected := false, activeWhenDisconnected := true,
    kind := .selfClearing, periodMs := 10000 }

/-- From src/unnamed/part_003 lines 119-126 (LoveNotes): a repeating
setInterval of 15000 ms armed only while isConnected is false. -/
def loveNotesFallback : FallbackPolicy :=
  { activeWhenConnected := false, activeWhenDisconnected := true,
    kind := .repeating, periodMs := 15000 }

/-- From src/frontend/src/pages/ThumbKiss.jsx lines 392-397 (LoveCoupons): a
repeating setInterval of 15000 ms armed only while isConnected is false. -/
def loveCouponsFallback : FallbackPolicy :=
  { activeWhenConnected := false, activeWhenDisconnected := true,
    kind := .repeating, periodMs := 15000 }

/-- Polls issued by a policy over the first t milliseconds spent in the given
connectivity state. -/
def pollsIssued (p : FallbackPolicy) (isConnected : Bool) (t : Nat) : Nat :=
  if (if isConnected then p.activeWhenConnected else p.activeWhenDisconnected) then
    pollsUpTo p.kind p.periodMs t
  else 0

/-- JavaScript truthiness of a nullable string: null, undefined and the
empty string are falsy. -/
def jsTruthyStr : Option String → Bool
  | none => false
  | some s => s != ""

/-- From src/frontend/src/pages/TodayQuestion.jsx lines 71-82: the fallback
polling effect is guarded only by the question state - it runs whenever the
own answer is present and both_answered is false - and reads no connectivity
input at all, so the guard is independent of isConnected. -/
def todayQuestionPollingActive (q : Option QuestionDTO) (_isConnected : Bool) : Bool :=
  match q with
  | none => false
  | some q => jsTruthyStr q.user_answer && !q.both_answered

/-- From src/frontend/src/pages/TodayQuestion.jsx lines 71-82: while the
guard holds, a repeating setInterval of 60000 ms re-fetches the question;
polls issued over the first t milliseconds in a fixed question and
connectivity state. -/
def todayQuestionPollsIssued (q : Option QuestionDTO) (isConnected : Bool) (t : Nat) : Nat :=
  if todayQuestionPollingActive q isConnected then pollsUpTo .repeating 60000 t
  else 0

/-! ## Realtime context value and the privacy-settings consumer (from the source) -/

/-- From src/unnamed/part_006 lines 459-464: the fields of the object
returned by useRealtime, namely the spread of the realtimeData state plus
pairKey, isConnected and database. -/
def realtimeContextKeys : List String :=
  ["questions", "notes", "trivia", "moods", "milestones", "canvas",
   "thumbKiss", "coupons", "bucket_list", "privacy_settings", "pic_of_day",
   "lastUpdate", "pairKey", "isConnected", "database"]

/-- From src/frontend/src/pages/ThumbKiss.jsx line 736 (PrivacySettings):
the context field the component destructures to receive push updates of the
partner mask. -/
def privacySettingsPushField : String := "realtimeUpdates"

/-- JavaScript member presence on the context object. -/
def jsField (keys : List String) (k : String) : Bool := keys.contains k

/-! ## Client session connectivity (from the source)

From the RealtimeContext (src/unnamed/part_006 lines 459-464 and
src/unnamed/part_007 lines 156-161): isConnected is the conjunction of the
module-level database handle being initialized and the user being paired.
The onValue listeners update only the realtimeData snapshot; no handler
observes transport failures or recoveries.  The paired flag comes from the
AuthContext and changes when refreshUser runs, in particular right after
/pairing/connect succeeds (Pairing.jsx line 65) and on logout. -/

/-- Client-session state read by the RealtimeProvider. -/
structure SessionState where
  dbConfigured : Bool
  isPaired : Bool
  lastUpdate : Option Nat
deriving DecidableEq

/-- Events a client session can observe. -/
inductive SessionEvent
  | envelopeArrived (t : Nat)
  | transportDown
  | transportUp
  | pairingCompleted
  | loggedOut
deriving DecidableEq

/-- From the RealtimeContext and AuthContext sources: envelopes update only
the snapshot timestamp; transport failures and recoveries have no handler
and change nothing; pairing completion and logout update the paired flag. -/
def stepSession (s : SessionState) : SessionEvent → SessionState
  | .envelopeArrived t => { s with lastUpdate := some t }
  | .transportDown => s
  | .transportUp => s
  | .pairingCompleted => { s with isPaired := true }
  | .loggedOut => { s with isPaired := false }

/-- From src/unnamed/part_006 line 462 and src/unnamed/part_007 line 159:
isConnected is database nonnull AND paired. -/
def isConnected (s : SessionState) : Bool := s.dbConfigured && s.isPaired

end Candle

namespace Candle

/-! ## Helper lemmas on the sort comparator -/

/-- The comparator is asymmetric. -/
theorem jsLtL_asymm : ∀ xs ys : List Char, jsLtL xs ys = true → jsLtL ys xs = false
  | [], [] => by simp [jsLtL]
  | [], _ :: _ => by simp [jsLtL]
  | _ :: _, [] => by simp [jsLtL]
  | c :: cs, d :: ds => by
      simp only [jsLtL]
      rcases lt_trichotomy c d with h | rfl | h
      · intro _
        rw [if_neg (asymm h), if_pos h]
      · simpa using jsLtL_asymm cs ds
      · rw [if_neg (asymm h), if_pos h]
        intro hcontra
        exact absurd hcontra (by simp)

/-- Two lists neither of which is below the other are equal. -/
theorem jsLtL_total_eq : ∀ xs ys : List Char,
    jsLtL xs ys = false → jsLtL ys xs = false → xs = ys
  | [], [] => by simp
  | [], _ :: _ => by simp [jsLtL]
  | _ :: _, [] => by simp [jsLtL]
  | c :: cs, d :: ds => by
      simp only [jsLtL]
      rcases lt_trichotomy c d with h | rfl | h
      · simp [h, asymm h]
      · simp only [lt_irrefl, if_false]
        intro h1 h2
        rw [jsLtL_total_eq cs ds h1 h2]
      · simp only [h, asymm h, if_true, if_false, if_neg, if_pos]
        intro _ hcontra
        simp at hcontra

/-- Sorting the two ids does not depend on their order. -/
theorem sortPair_symm (a b : String) : sortPair a b = sortPair b a := by
  unfold sortPair
  cases h1 : jsLt b a <;> cases h2 : jsLt a b
  · have : a = b := String.ext (jsLtL_total_eq a.data b.data h2 h1)
    subst this
    rfl
  · rfl
  · rfl
  · unfold jsLt at h1 h2
    rw [jsLtL_asymm a.data b.data h2] at h1
    simp at h1

/-! ## Claim theorems -/

/-- Claim C2: for all distinct participant ids A and B, the derived pair key
is independent of the order of its two arguments. -/
theorem C2_pair_key_symm (a b : String) (h : a ≠ b) :
    getPairKey (some a) (some b) = getPairKey (some b) (some a) := by
  simp only [getPairKey, sortPair_symm]
  by_cases ha : a = "" <;> by_cases hb : b = "" <;> simp [ha, hb]

/-- Witness for C2 at the concrete ids alice and bob. -/
theorem C2_pair_key_symm_witness :
    ("alice" : String) ≠ "bob" ∧
      getPairKey (some "alice") (some "bob") = getPairKey (some "bob") (some "alice") :=
  ⟨by decide, C2_pair_key_symm "alice" "bob" (by decide)⟩

/-- Counterexample for C3: two equal participant ids are not rejected; the
code happily produces the degenerate pair key. -/
theorem C3_self_pair_counterexample :
    getPairKey (some "u1") (some "u1") = some "u1_u1" := by decide

/-- Claim C3 as amended: the pair-key derivation fails (returns null)
exactly when either id is absent or empty; equal ids are not checked. -/
theorem C3_pair_key_failure_amended (idA idB : Option String) :
    getPairKey idA idB = none ↔
      (idA = none ∨ idB = none ∨ idA = some "" ∨ idB = some "") := by
  rcases idA with _ | a <;> rcases idB with _ | b <;> simp [getPairKey]
  tauto

/-- Claim C1: while the phase is not Revealed a read yields only the caller
own response and never the partner response; once Revealed, both responses
are returned; the TodayQuestion page likewise renders the partner answer
only in the both_answered branch. -/
theorem C1_reveal_read_gate :
    (∀ (i : RevealableInteraction) (caller : Participant),
        RevealGate.phase i ≠ RevealGate.Phase.Revealed →
          (RevealGate.get i caller).partnerAnswer = none) ∧
    (∀ (i : RevealableInteraction) (caller : Participant),
        RevealGate.phase i = RevealGate.Phase.Revealed →
          (RevealGate.get i caller).mine = RevealGate.resp i caller ∧
          (RevealGate.get i caller).partnerAnswer = RevealGate.resp i caller.other) ∧
    (∀ q : QuestionDTO, q.both_answered = false →
        displaysPartnerAnswer (todayQuestionAnswerSection q) = false) := by
  refine ⟨?_, ?_, ?_⟩
  · intro i caller h
    simp [RevealGate.get, h]
  · intro i caller h
    simp [RevealGate.get, h]
  · intro q h
    rcases q with ⟨ua, pa, ba⟩
    cases ua <;> simp_all [todayQuestionAnswerSection, displaysPartnerAnswer]

/-- Witness for C1: a one-response interaction hides the partner response,
a revealed one serves both, and a waiting page renders no partner answer. -/
theorem C1_reveal_read_gate_witness :
    (RevealGate.phase ⟨some "blue", none, some 1, none, none⟩ ≠ RevealGate.Phase.Revealed ∧
      (RevealGate.get ⟨some "blue", none, some 1, none, none⟩ Participant.A).partnerAnswer = none) ∧
    (RevealGate.phase ⟨some "blue", some "green", some 1, some 2, some 2⟩ = RevealGate.Phase.Revealed ∧
      ((RevealGate.get ⟨some "blue", some "green", some 1, some 2, some 2⟩ Participant.A).mine =
          RevealGate.resp ⟨some "blue", some "green", some 1, some 2, some 2⟩ Participant.A ∧
        (RevealGate.get ⟨some "blue", some "green", some 1, some 2, some 2⟩ Participant.A).partnerAnswer =
          RevealGate.resp ⟨some "blue", some "green", some 1, some 2, some 2⟩ Participant.A.other)) ∧
    ((⟨some "blue", none, false⟩ : QuestionDTO).both_answered = false ∧
      displaysPartnerAnswer (todayQuestionAnswerSection ⟨some "blue", none, false⟩) = false) :=
  ⟨⟨by decide, C1_reveal_read_gate.1 _ _ (by decide)⟩,
   ⟨by decide, C1_reveal_read_gate.2.1 _ _ (by decide)⟩,
   ⟨by decide, C1_reveal_read_gate.2.2 _ (by decide)⟩⟩

/-- Claim C4: a successful submit stores the response, and from then on any
further submit by the same participant is rejected with AlreadyResponded, in
every phase, so a committed response is never overwritten. -/
theorem C4_no_overwrite (i : RevealableInteraction) (p : Participant) (r : String)
    (now : Nat) (i' : RevealableInteraction)
    (h : RevealGate.submit i p r now = Except.ok i') :
    RevealGate.resp i' p = some r ∧
    ∀ (r' : String) (now' : Nat),
      RevealGate.submit i' p r' now' = Except.error RevealGate.SubmitError.AlreadyResponded := by
  rcases i with ⟨ra, rb, ta, tb, rv⟩
  cases p <;> cases ra <;> cases rb <;>
    simp_all [RevealGate.submit, RevealGate.phase, RevealGate.record, RevealGate.resp] <;>
    (subst h; exact ⟨rfl, fun r' now' => rfl⟩)

/-- Witness for C4: a first submit on an empty interaction succeeds and a
second submit by the same participant is rejected. -/
theorem C4_no_overwrite_witness :
    RevealGate.submit ⟨none, none, none, none, none⟩ Participant.A "blue" 1 =
        Except.ok ⟨some "blue", none, some 1, none, none⟩ ∧
    RevealGate.resp ⟨some "blue", none, some 1, none, none⟩ Participant.A = some "blue" ∧
    RevealGate.submit ⟨some "blue", none, some 1, none, none⟩ Participant.A "red" 2 =
        Except.error RevealGate.SubmitError.AlreadyResponded :=
  ⟨by rfl,
   (C4_no_overwrite ⟨none, none, none, none, none⟩ Participant.A "blue" 1
      ⟨some "blue", none, some 1, none, none⟩ (by rfl)).1,
   (C4_no_overwrite ⟨none, none, none, none, none⟩ Participant.A "blue" 1
      ⟨some "blue", none, some 1, none, none⟩ (by rfl)).2 "red" 2⟩

/-- Claim C5: a guess while the setter has not committed is rejected with
PartnerNotReady and the interaction is unchanged, and the Trivia page treats
exactly this rejection as recoverable, returning to the waiting phase. -/
theorem C5_guess_awaiting_setter :
    (∀ (t : TurnInteraction) (v : String),
        TurnProtocol.phase t = TurnProtocol.TPhase.AwaitingSetter →
          TurnProtocol.guess t v = (t, some TurnProtocol.TurnError.PartnerNotReady)) ∧
    (∀ detail : String, strContains detail "Waiting for" = true →
        submitGuessCatch detail =
          { toastKind := "info", phaseAfter := some "waiting_for_partner" }) := by
  constructor
  · intro t v h
    rcases t with ⟨s, gt, gv, ic⟩
    cases gt
    · simp [TurnProtocol.guess]
    · cases gv <;> simp [TurnProtocol.phase] at h
  · intro d h
    simp [submitGuessCatch, h]

/-- Witness for C5: guessing Paris before the setter committed is rejected
without mutation, and the page error handler recovers on the backend detail
text. -/
theorem C5_guess_awaiting_setter_witness :
    TurnProtocol.phase ⟨Participant.A, none, none, none⟩ = TurnProtocol.TPhase.AwaitingSetter ∧
    TurnProtocol.guess ⟨Participant.A, none, none, none⟩ "Paris" =
      (⟨Participant.A, none, none, none⟩, some TurnProtocol.TurnError.PartnerNotReady) ∧
    strContains "Waiting for Alex to answer" "Waiting for" = true ∧
    submitGuessCatch "Waiting for Alex to answer" =
      { toastKind := "info", phaseAfter := some "waiting_for_partner" } :=
  ⟨by decide,
   C5_guess_awaiting_setter.1 ⟨Participant.A, none, none, none⟩ "Paris" (by decide),
   by decide,
   C5_guess_awaiting_setter.2 "Waiting for Alex to answer" (by decide)⟩

/-- Counterexample for C6: on a partner envelope the ThumbKiss subscriber
issues zero authoritative re-fetches and instead derives its new local count
directly from the hint, incrementing it in place. -/
theorem C6_thumbkiss_counterexample :
    thumbKissOnEnvelope "me" (some ⟨"partner"⟩) (some 1) ⟨5, false⟩ =
      (⟨6, true⟩, 0) := by decide

/-- Claim C6 as amended: LoveNotes and TodayQuestion re-fetch authoritative
state on every received envelope, using the payload only for notification
text; but ThumbKiss increments its local kiss count directly from the hint
with no re-fetch, Trivia drives its round phase directly from the envelope
event field with no re-fetch at all on trivia_waiting_guess, and SharedCanvas
installs the envelope object itself into its rendered partner-drawing state
alongside its re-fetch. -/
theorem C6_hint_refetch_amended :
    (∀ (e : NotesEnvelope) (lu : Nat), loveNotesOnEnvelope (some e) (some lu) = 1) ∧
    (∀ (e : QuestionsEnvelope) (lu : Nat), todayQuestionOnEnvelope (some e) (some lu) = 1) ∧
    (∀ (uid : String) (e : ThumbKissEnvelope) (lu : Nat) (st : ThumbKissState),
        e.from_user_id ≠ uid →
          thumbKissOnEnvelope uid (some e) (some lu) st =
            ({ kissCount := st.kissCount + 1, receivedKiss := true }, 0)) ∧
    (∀ (lu : Nat) (ph : Option String),
        triviaOnEnvelope (some ⟨"trivia_waiting_guess"⟩) (some lu) ph =
          ⟨some "guessing", false, 0⟩) ∧
    (∀ (e : CanvasEnvelope) (lu : Nat) (pd : Option CanvasEnvelope),
        e.event = "drawing_saved" →
          sharedCanvasOnEnvelope (some e) (some lu) pd = ⟨some e, 1⟩) := by
  refine ⟨fun e lu => rfl, fun e lu => rfl, ?_, ?_, ?_⟩
  · intro uid e lu st h
    simp [thumbKissOnEnvelope, h]
  · intro lu ph
    rfl
  · intro e lu pd h
    simp [sharedCanvasOnEnvelope, h]

/-- Witness for C6 as amended at a concrete partner kiss envelope and a
concrete saved-drawing envelope. -/
theorem C6_hint_refetch_amended_witness :
    (("partner" : String) ≠ "me" ∧
      thumbKissOnEnvelope "me" (some ⟨"partner"⟩) (some 2) ⟨7, false⟩ =
        ({ kissCount := 7 + 1, receivedKiss := true }, 0)) ∧
    ((⟨"drawing_saved", "Alex", "sunset"⟩ : CanvasEnvelope).event = "drawing_saved" ∧
      sharedCanvasOnEnvelope (some ⟨"drawing_saved", "Alex", "sunset"⟩) (some 3) none =
        ⟨some ⟨"drawing_saved", "Alex", "sunset"⟩, 1⟩) :=
  ⟨⟨by decide, C6_hint_refetch_amended.2.2.1 "me" ⟨"partner"⟩ 2 ⟨7, false⟩ (by decide)⟩,
   ⟨by decide,
    C6_hint_refetch_amended.2.2.2.2 ⟨"drawing_saved", "Alex", "sunset"⟩ 3 none (by decide)⟩⟩

/-- Counterexample for C7: over a 30000 ms disconnected span covering two
15000 ms fallback intervals, the Trivia subscriber issues a single poll (its
fallback is a one-shot timeout), not one poll per interval, while LoveNotes
with its repeating interval issues two. -/
theorem C7_trivia_single_poll_counterexample :
    pollsIssued triviaScoresFallback false 30000 = 1 ∧
    30000 / 15000 = 2 ∧
    pollsIssued loveNotesFallback false 30000 = 2 := by decide

/-- Claim C7 as amended: while disconnected, subscribers with a repeating
interval (LoveNotes) issue exactly one poll per 15000 ms interval for as
long as the state lasts, whereas subscribers with a one-shot timeout
(Trivia) issue exactly one poll in total once at least one interval has
elapsed. -/
theorem C7_poll_cadence_amended (n : Nat) :
    pollsIssued loveNotesFallback false (15000 * n) = n ∧
    (1 ≤ n → pollsIssued triviaScoresFallback false (15000 * n) = 1) := by
  constructor
  · simp only [pollsIssued, loveNotesFallback, pollsUpTo, if_true]
    exact Nat.mul_div_cancel_left n (by norm_num)
  · intro h
    have hle : (15000 : Nat) ≤ 15000 * n := by omega
    simp [pollsIssued, triviaScoresFallback, pollsUpTo, hle]

/-- Witness for C7 as amended over two intervals. -/
theorem C7_poll_cadence_amended_witness :
    pollsIssued loveNotesFallback false (15000 * 2) = 2 ∧
    (1 ≤ 2) ∧
    pollsIssued triviaScoresFallback false (15000 * 2) = 1 :=
  ⟨(C7_poll_cadence_amended 2).1, by decide, (C7_poll_cadence_amended 2).2 (by decide)⟩

/-- Counterexample for C8: the TodayQuestion fallback poll is guarded only
by the question state, so with the own answer submitted and the partner
pending it issues a poll during the first 60000 ms interval even while the
push path is connected. -/
theorem C8_today_question_polls_while_live_counterexample :
    todayQuestionPollsIssued
      (some { user_answer := some "blue", partner_answer := none, both_answered := false })
      true 60000 = 1 := by decide

/-- Claim C8 as amended: the fallback timers of Trivia, ThumbKiss, LoveNotes
and LoveCoupons are torn down whenever isConnected is true, so those
features issue no polls while the push path is connected; but the
TodayQuestion fallback poll ignores connectivity entirely - its guard reads
only the question state - and keeps issuing one poll per 60000 ms interval
while the broadcast path is connected, for as long as the partner answer is
pending. -/
theorem C8_timer_cancellation_amended :
    (∀ t, pollsIssued triviaScoresFallback true t = 0) ∧
    (∀ t, pollsIssued thumbKissFallback true t = 0) ∧
    (∀ t, pollsIssued loveNotesFallback true t = 0) ∧
    (∀ t, pollsIssued loveCouponsFallback true t = 0) ∧
    (∀ (q : Option QuestionDTO) (c c' : Bool) (t : Nat),
        todayQuestionPollsIssued q c t = todayQuestionPollsIssued q c' t) ∧
    todayQuestionPollsIssued
      (some { user_answer := some "blue", partner_answer := none, both_answered := false })
      true 120000 = 2 :=
  ⟨fun t => rfl, fun t => rfl, fun t => rfl, fun t => rfl,
   fun q c c' t => rfl, by decide⟩

/-- Claim C9, evaluated at the failing input: the RealtimeProvider stores
incoming privacy-mask envelopes under the context field privacy_settings,
but the PrivacySettings component reads the nonexistent context field
realtimeUpdates, so the push invalidation of the partner mask can never be
applied by its consumer. -/
theorem C9_privacy_push_field_mismatch :
    jsField realtimeContextKeys "privacy_settings" = true ∧
    jsField realtimeContextKeys privacySettingsPushField = false := by decide

/-- Counterexample for C10: completing pairing mid-session flips isConnected
from false to true, so the connectivity classification is not fixed at
startup for the whole session lifetime. -/
theorem C10_pairing_flips_connectivity_counterexample :
    isConnected ⟨true, false, none⟩ = false ∧
    isConnected (stepSession ⟨true, false, none⟩ SessionEvent.pairingCompleted) = true := by
  decide

/-- Claim C10 as amended: in every state isConnected equals the conjunction
of the database handle being configured and the user being paired, and no
broadcast-transport event (failure, recovery or envelope delivery) ever
changes it; it changes only through auth-state events such as pairing. -/
theorem C10_connectivity_amended :
    (∀ s : SessionState, isConnected s = (s.dbConfigured && s.isPaired)) ∧
    (∀ (s : SessionState) (e : SessionEvent),
        (e = SessionEvent.transportDown ∨ e = SessionEvent.transportUp ∨
          ∃ t, e = SessionEvent.envelopeArrived t) →
        isConnected (stepSession s e) = isConnected s) := by
  refine ⟨fun s => rfl, ?_⟩
  intro s e he
  rcases he with rfl | rfl | ⟨t, rfl⟩ <;> rfl

/-- Witness for C10 as amended at a transport failure in a Live session. -/
theorem C10_connectivity_amended_witness :
    (SessionEvent.transportDown = SessionEvent.transportDown ∨
      SessionEvent.transportDown = SessionEvent.transportUp ∨
      ∃ t, SessionEvent.transportDown = SessionEvent.envelopeArrived t) ∧
    isConnected (stepSession ⟨true, true, none⟩ SessionEvent.transportDown) =
      isConnected ⟨true, true, none⟩ :=
  ⟨Or.inl rfl, C10_connectivity_amended.2 ⟨true, true, none⟩ _ (Or.inl rfl)⟩

end Candle
